import Mathlib

/-
Verification of the architecture-analysis core of the Simulator-LLM
repository (src/arch_analyzer.py and src/cgra_analyzer.py) against its
natural-language specification.

The syntax-tree shape and every analysis function below are transcribed
from the Python source.  Conventions of the embedding:

* a JSON AST node becomes `Node`; the `type` field of a node is always
  present (the producer in src/code_analyzer.py always emits it, and the
  spec's data model makes `kind` mandatory), `text` is optional, missing
  `children` is the empty list, and spans are `Point` pairs;
* Python dictionaries whose keys are fixed become structures; a dict
  access with `.get(k, default)` becomes `Option.getD`;
* `str.lower()` is modeled by ASCII case folding (`pyLower`) — every
  keyword in the rule tables is ASCII, where Python's and this folding
  agree — and the substring test `a in b` becomes `strContains b a`;
* Python `set` accumulators are modeled by duplicate-free lists in first
  insertion order; the order in which CPython's `list(s)` enumerates a
  set of strings is hash-seed dependent, so the final conversion at
  src/arch_analyzer.py line 248 takes the enumeration as an explicit
  `setOrder` parameter;
* `json.load` of an analysis file may raise, so a loaded batch is a list
  of `Except String AnalysisData`, and exceptions escaping
  `analyze_architecture` are modeled by `Except.error`.
-/

/-- A (row, column) source position, as in the `start_point`/`end_point`
objects emitted by the producer. -/
structure Point where
  row : Nat
  column : Nat
deriving DecidableEq

/-- A syntax-tree node: `type`, optional `text`, span, ordered children.
Mirrors the dictionaries built by `TreeSitterAnalyzer._node_to_dict`. -/
inductive Node where
  | mk (type : String) (text : Option String) (start_point end_point : Point)
       (children : List Node)

/-- The node's `type` field. -/
def Node.type : Node → String
  | .mk k _ _ _ _ => k

/-- The node's optional `text` field. -/
def Node.text : Node → Option String
  | .mk _ t _ _ _ => t

/-- The node's `start_point` field. -/
def Node.start_point : Node → Point
  | .mk _ _ s _ _ => s

/-- The node's `end_point` field. -/
def Node.end_point : Node → Point
  | .mk _ _ _ e _ => e

/-- The node's `children` field (absent children are the empty list). -/
def Node.children : Node → List Node
  | .mk _ _ _ _ cs => cs

/-- ASCII case folding, modeling Python's `str.lower()` on the ASCII
strings this analyzer works with. -/
def pyLower (s : String) : String := ⟨s.data.map Char.toLower⟩

/-- Python's substring test `needle in hay` on strings. -/
def strContains (hay needle : String) : Bool :=
  decide (needle.data <:+: hay.data)

/-- The four generic pattern categories of `ArchitectureAnalyzer.patterns`. -/
inductive PatternType where
  | component
  | control_flow
  | data_flow
  | state
deriving DecidableEq

/-- The `identifiers` keyword list of each category
(src/arch_analyzer.py lines 17-58). -/
def patternIdentifiers : PatternType → List String
  | .component =>
      ["component", "module", "unit", "block", "element",
       "processor", "core", "engine", "accelerator"]
  | .control_flow =>
      ["control", "schedule", "dispatch", "orchestrate",
       "execute", "step", "cycle", "tick", "clock"]
  | .data_flow =>
      ["data", "input", "output", "stream", "flow", "buffer",
       "queue", "channel", "port", "signal"]
  | .state =>
      ["state", "status", "mode", "configuration", "setting",
       "parameter", "register"]

/-- The `types` node-kind list of each category
(src/arch_analyzer.py lines 17-58). -/
def patternTypes : PatternType → List String
  | .component =>
      ["struct_type", "interface_type", "class_declaration",
       "type_declaration"]
  | .control_flow =>
      ["function_declaration", "method_declaration",
       "if_statement", "switch_statement", "for_statement"]
  | .data_flow =>
      ["field_declaration", "variable_declaration",
       "channel_type", "array_type"]
  | .state =>
      ["field_declaration", "variable_declaration",
       "const_declaration"]

/-- `ArchitectureAnalyzer._match_pattern` (lines 77-86): the node's
lower-cased `type` is in the category's `types` list, or its lower-cased
`text` (missing text defaulting to the empty string) contains one of the
category's `identifiers` keywords. -/
def match_pattern (n : Node) (pattern_type : PatternType) : Bool :=
  let node_type := pyLower n.type
  let node_text := pyLower (n.text.getD "")
  (patternTypes pattern_type).contains node_type ||
    (patternIdentifiers pattern_type).any (fun p => strContains node_text p)

/-- The loop body of `ArchitectureAnalyzer._extract_name` (lines 72-75):
return the `text` of the first child whose `type` is `identifier` or
`field_identifier` — note the text of that child is returned even when it
is absent, and only immediate children are inspected. -/
def firstIdentText : List Node → Option String
  | [] => none
  | c :: cs =>
      if c.type == "identifier" || c.type == "field_identifier" then c.text
      else firstIdentText cs

/-- `ArchitectureAnalyzer._extract_name` (lines 68-75). -/
def extract_name (n : Node) : Option String :=
  match n.text with
  | some t => some t
  | none => firstIdentText n.children

/-- A `contains` relationship dictionary (lines 106-110): `from` and `to`
are the names carried by the matched nodes' info records, either of which
may be absent (`None`). The Lean field names carry a trailing underscore
because `from` is reserved. -/
structure Relationship where
  from_ : Option String
  to_ : Option String
  type : String
deriving DecidableEq

/-- The `current_info` record built for a matched component node
(lines 95-102): its extracted name, node `type` and location. -/
structure Info where
  name : Option String
  type : String
  startP : Point
  endP : Point
deriving DecidableEq

/-- The info record of a node, as built at src/arch_analyzer.py
lines 95-102. -/
def node_info (n : Node) : Info :=
  ⟨extract_name n, n.type, n.start_point, n.end_point⟩

/-- The relationship appended at lines 105-110: nothing when the node
did not match (`current_info` is `None`) or no parent info is in scope,
else one `contains` edge from the parent's name to the current name. -/
def emitRel (current_info parent_info : Option Info) : List Relationship :=
  match current_info with
  | none => []
  | some c =>
      match parent_info with
      | none => []
      | some p => [⟨p.name, c.name, "contains"⟩]

/-- Python's `current_info or parent_info` (line 114): `current_info` is
either `None` or a non-empty (hence truthy) dictionary. -/
def ctxOr (current_info parent_info : Option Info) : Option Info :=
  match current_info with
  | some c => some c
  | none => parent_info

mutual
/-- `ArchitectureAnalyzer._extract_relationships` (lines 88-117): if the
node matches the `component` category, build its info; emit a `contains`
relationship when a parent info is in scope; recurse into the children
with `current_info or parent_info` as the new context. -/
def extract_relationships : Node → Option Info → List Relationship
  | n@(.mk _ _ _ _ cs), parent_info =>
    let current_info : Option Info :=
      if match_pattern n .component then some (node_info n) else none
    emitRel current_info parent_info ++
      extract_relationships_list cs (ctxOr current_info parent_info)

/-- The `for child in node.get('children', [])` loop of
`_extract_relationships` (lines 113-115). -/
def extract_relationships_list : List Node → Option Info → List Relationship
  | [], _ => []
  | c :: cs, ctx =>
      extract_relationships c ctx ++ extract_relationships_list cs ctx
end

/-- A control-flow pattern record (lines 124-133).  The source also
stores a constant `'type': 'control_flow'` tag and an always-empty
`children` list; the tag is kept, the constant empty list is omitted. -/
structure ControlPattern where
  type : String
  name : Option String
  node_type : String
  startP : Point
  endP : Point
deriving DecidableEq

mutual
/-- `ArchitectureAnalyzer._extract_control_flow` (lines 119-140). -/
def extract_control_flow : Node → List ControlPattern
  | n@(.mk _ _ _ _ cs) =>
    let here : List ControlPattern :=
      if match_pattern n .control_flow then
        [⟨"control_flow", extract_name n, n.type, n.start_point, n.end_point⟩]
      else []
    here ++ extract_control_flow_list cs

/-- The child loop of `_extract_control_flow` (lines 136-138). -/
def extract_control_flow_list : List Node → List ControlPattern
  | [] => []
  | c :: cs => extract_control_flow c ++ extract_control_flow_list cs
end

/-- `ArchitectureAnalyzer._determine_data_direction` (lines 165-172):
case-folded text; the `input/in/receive` family is tested first, then
`output/out/send`, else `bidirectional`. -/
def determine_data_direction (n : Node) : String :=
  let text := pyLower (n.text.getD "")
  if ["input", "in", "receive"].any (fun x => strContains text x) then "in"
  else if ["output", "out", "send"].any (fun x => strContains text x) then "out"
  else "bidirectional"

/-- A data-flow pattern record (lines 147-156). -/
structure DataPattern where
  type : String
  name : Option String
  node_type : String
  startP : Point
  endP : Point
  direction : String
deriving DecidableEq

mutual
/-- `ArchitectureAnalyzer._extract_data_flow` (lines 142-163). -/
def extract_data_flow : Node → List DataPattern
  | n@(.mk _ _ _ _ cs) =>
    let here : List DataPattern :=
      if match_pattern n .data_flow then
        [⟨"data_flow", extract_name n, n.type, n.start_point, n.end_point,
          determine_data_direction n⟩]
      else []
    here ++ extract_data_flow_list cs

/-- The child loop of `_extract_data_flow` (lines 159-161). -/
def extract_data_flow_list : List Node → List DataPattern
  | [] => []
  | c :: cs => extract_data_flow c ++ extract_data_flow_list cs
end

/-- A per-file analysis result, the dictionary returned by
`ArchitectureAnalyzer.analyze_file` (lines 180-184) when an `ast` key is
present. -/
structure FileAnalysis where
  relationships : List Relationship
  control_flow : List ControlPattern
  data_flow : List DataPattern
deriving DecidableEq

/-- The value under the `ast` key of a bundle entry: the dictionary
produced by `TreeSitterAnalyzer.parse_file`, whose own `ast` key holds
the root node (modeled optional, since `analyze_file` tests for it). -/
structure AstData where
  ast : Option Node

/-- `ArchitectureAnalyzer.analyze_file` (lines 174-186): with no `ast`
key the empty dictionary is returned (modeled `none`); otherwise the
three extractors run on the root. -/
def analyze_file (ast_data : AstData) : Option FileAnalysis :=
  match ast_data.ast with
  | none => none
  | some root =>
      some ⟨extract_relationships root none,
            extract_control_flow root,
            extract_data_flow root⟩

/-- Python `set.add` on the components accumulator: duplicate-free list
in first-insertion order, representing the set's contents. -/
def addComponent (s : List (Option String)) (x : Option String) :
    List (Option String) :=
  if s.contains x then s else s ++ [x]

/-- The component-collection loop of `analyze_architecture`
(lines 232-234): add the `from` and then the `to` endpoint of every
relationship to the components set. -/
def addComponents (s : List (Option String)) :
    List Relationship → List (Option String)
  | [] => s
  | r :: rs => addComponents (addComponent (addComponent s r.from_) r.to_) rs

/-- The directed relationship graph.  The source stores it in a
`networkx.DiGraph`, an external library excluded from the core; per the
spec's ArchitectureGraph contract (§3, §4.8) it is an adjacency record:
every endpoint becomes a node, edges are keyed by the endpoint pair, and
a repeated pair overwrites the edge attribute (last write wins). -/
structure RelGraph where
  nodes : List (Option String)
  edges : List ((Option String × Option String) × String)
deriving DecidableEq

/-- The empty graph. -/
def graphInit : RelGraph := ⟨[], []⟩

/-- Edge insertion with last-write-wins overwrite on the `(from, to)`
key. -/
def updateEdge : List ((Option String × Option String) × String) →
    (Option String × Option String) → String →
    List ((Option String × Option String) × String)
  | [], k, v => [(k, v)]
  | (k1, v1) :: es, k, v =>
      if k1 = k then (k, v) :: es else (k1, v1) :: updateEdge es k v

/-- `DiGraph.add_edge`: both endpoints become nodes, the edge attribute
is set or overwritten. -/
def add_edge (g : RelGraph) (u v : Option String) (t : String) : RelGraph :=
  ⟨addComponent (addComponent g.nodes u) v, updateEdge g.edges (u, v) t⟩

/-- `ArchitectureAnalyzer.build_relationship_graph` (lines 188-195). -/
def build_relationship_graph (g : RelGraph) : List Relationship → RelGraph
  | [] => g
  | r :: rs => build_relationship_graph (add_edge g r.from_ r.to_ r.type) rs

/-- One element of an analysis file's `analysis` list; its `ast` key is
the per-file bundle and may be missing (line 219 tests for it). -/
structure FileEntry where
  ast : Option AstData

/-- A loaded `*_analysis.json` document: its `analysis` list (missing
defaults to empty via `data.get('analysis', [])`). -/
structure AnalysisData where
  analysis : List FileEntry

/-- The `metrics` block of the architecture analysis (lines 207-212,
240-245). -/
structure Metrics where
  total_components : Nat
  total_relationships : Nat
  control_flow_count : Nat
  data_flow_count : Nat
deriving DecidableEq

/-- The architecture-analysis output document (lines 202-213, 247-250):
the components set converted to a list, the three concatenated pattern
lists, and the metrics. -/
structure ArchAnalysis where
  components : List (Option String)
  relationships : List Relationship
  control_flow_patterns : List ControlPattern
  data_flow_patterns : List DataPattern
  metrics : Metrics
deriving DecidableEq

/-- The running accumulators of `analyze_architecture` while files are
folded in. -/
structure Accum where
  components : List (Option String)
  relationships : List Relationship
  control_flow_patterns : List ControlPattern
  data_flow_patterns : List DataPattern
deriving DecidableEq

/-- The empty accumulators (lines 202-206). -/
def accumInit : Accum := ⟨[], [], [], []⟩

/-- Folding one per-file result into the accumulators (lines 222-234). -/
def accumAdd (acc : Accum) (fp : FileAnalysis) : Accum :=
  ⟨addComponents acc.components fp.relationships,
   acc.relationships ++ fp.relationships,
   acc.control_flow_patterns ++ fp.control_flow,
   acc.data_flow_patterns ++ fp.data_flow⟩

/-- The `for file_analysis in data.get('analysis', [])` loop
(lines 218-234): an entry without an `ast` key is skipped; otherwise
`analyze_file` runs on the entry's `ast` value, and when it returns the
empty dictionary the subsequent `file_patterns['relationships']` access
raises a `KeyError` that escapes the whole batch. -/
def foldEntries : Accum → List FileEntry → Except String Accum
  | acc, [] => .ok acc
  | acc, e :: es =>
      match e.ast with
      | none => foldEntries acc es
      | some ad =>
          match analyze_file ad with
          | none => .error "KeyError: relationships"
          | some fp => foldEntries (accumAdd acc fp) es

/-- The outer `for analysis_file in analysis_files` loop (lines 216-217):
`_load_analysis_file` opens and `json.load`s each file with no exception
handling, so a file that fails to load aborts the whole batch. -/
def foldFiles : Accum → List (Except String AnalysisData) → Except String Accum
  | acc, [] => .ok acc
  | _, .error msg :: _ => .error msg
  | acc, .ok d :: fs =>
      match foldEntries acc d.analysis with
      | .error msg => .error msg
      | .ok acc2 => foldFiles acc2 fs

/-- `ArchitectureAnalyzer.analyze_architecture` (lines 197-250): fold
every loaded analysis file, compute the metrics as the plain counts of
the accumulated collections, and convert the components set to a list.
`setOrder` is the order in which CPython's `list(...)` happens to
enumerate the set at line 248 — hash-seed dependent, hence a parameter
of the model; the source applies no sorting or other canonicalization. -/
def analyze_architecture (files : List (Except String AnalysisData))
    (setOrder : List (Option String) → List (Option String)) :
    Except String ArchAnalysis :=
  match foldFiles accumInit files with
  | .error msg => .error msg
  | .ok acc =>
      .ok ⟨setOrder acc.components,
           acc.relationships,
           acc.control_flow_patterns,
           acc.data_flow_patterns,
           ⟨acc.components.length, acc.relationships.length,
            acc.control_flow_patterns.length, acc.data_flow_patterns.length⟩⟩

/-- The CGRA keyword table `CGRAAnalyzer.cgra_patterns`
(src/cgra_analyzer.py lines 20-49), in dictionary insertion order, which
Python preserves during iteration. -/
def cgra_patterns : List (String × List String) :=
  [("processing_elements", ["ProcessingElement", "PE", "ALU", "FunctionalUnit"]),
   ("interconnects", ["Network", "Interconnect", "Router", "Switch"]),
   ("memories", ["Memory", "Buffer", "Cache", "Register"]),
   ("controls", ["Controller", "Scheduler", "Mapper"]),
   ("configurations", ["Config", "Configuration", "Setting"])]

/-- The `for comp_type, patterns in self.cgra_patterns.items()` loop of
`_identify_component_type` (lines 57-59): first category whose keyword
list has a lower-cased member contained in the text wins. -/
def findCategory (text : String) : List (String × List String) → Option String
  | [] => none
  | (comp_type, pats) :: rest =>
      if pats.any (fun p => strContains text (pyLower p)) then some comp_type
      else findCategory text rest

/-- `CGRAAnalyzer._identify_component_type` (lines 51-60): a node with no
`text` key gets no category; otherwise the categories are tested in the
table's fixed order on the lower-cased text. -/
def identify_component_type (n : Node) : Option String :=
  match n.text with
  | none => none
  | some t => findCategory (pyLower t) cgra_patterns

/-- A field record built by `CGRAAnalyzer._extract_field_info`
(lines 82-98). -/
structure FieldInfo where
  name : String
  type : String
  tags : List String
deriving DecidableEq

/-- `CGRAAnalyzer._extract_field_info` (lines 82-98): scan the immediate
children, each matching child overwriting the corresponding key (tags
accumulate). -/
def extract_field_info (n : Node) : FieldInfo :=
  n.children.foldl
    (fun fi c =>
      if c.type == "field_identifier" then { fi with name := c.text.getD "" }
      else if c.type == "type_identifier" then { fi with type := c.text.getD "" }
      else if c.type == "tag" then { fi with tags := fi.tags ++ [c.text.getD ""] }
      else fi)
    ⟨"", "", []⟩

/-- A parameter or receiver record, `{'name': ..., 'type': ...}`
(lines 124-127, 138-141). -/
structure ParamInfo where
  name : String
  type : String
deriving DecidableEq

/-- `CGRAAnalyzer._extract_parameters` (lines 119-134). -/
def extract_parameters (n : Node) : List ParamInfo :=
  n.children.foldl
    (fun ps c =>
      if c.type == "parameter_declaration" then
        ps ++ [c.children.foldl
          (fun p pc =>
            if pc.type == "identifier" then { p with name := pc.text.getD "" }
            else if pc.type == "type_identifier" then
              { p with type := pc.text.getD "" }
            else p)
          ⟨"", ""⟩]
      else ps)
    []

/-- `CGRAAnalyzer._extract_receiver` (lines 136-147). -/
def extract_receiver (n : Node) : ParamInfo :=
  n.children.foldl
    (fun p c =>
      if c.type == "identifier" then { p with name := c.text.getD "" }
      else if c.type == "type_identifier" then { p with type := c.text.getD "" }
      else p)
    ⟨"", ""⟩

/-- A method record built by `CGRAAnalyzer._extract_method_info`
(lines 100-117). -/
structure MethodInfo where
  name : String
  parameters : List ParamInfo
  return_type : String
  receiver : Option ParamInfo
deriving DecidableEq

/-- `CGRAAnalyzer._extract_method_info` (lines 100-117).  The
`return_type` key is initialized empty and never written. -/
def extract_method_info (n : Node) : MethodInfo :=
  n.children.foldl
    (fun mi c =>
      if c.type == "field_identifier" then { mi with name := c.text.getD "" }
      else if c.type == "parameter_list" then
        { mi with parameters := extract_parameters c }
      else if c.type == "receiver" then
        { mi with receiver := some (extract_receiver c) }
      else mi)
    ⟨"", [], "", none⟩

/-- The interface record of `CGRAAnalyzer._extract_interface_info`
(lines 62-80); `inputs` and `outputs` are initialized and never filled. -/
structure InterfaceInfo where
  inputs : List FieldInfo
  outputs : List FieldInfo
  parameters : List FieldInfo
  methods : List MethodInfo
deriving DecidableEq

/-- `CGRAAnalyzer._extract_interface_info` (lines 62-80): only
`struct_type`/`interface_type` nodes are scanned, and only their
immediate children. -/
def extract_interface_info (n : Node) : InterfaceInfo :=
  if n.type == "struct_type" || n.type == "interface_type" then
    n.children.foldl
      (fun ii c =>
        if c.type == "field_declaration" then
          { ii with parameters := ii.parameters ++ [extract_field_info c] }
        else if c.type == "method_declaration" then
          { ii with methods := ii.methods ++ [extract_method_info c] }
        else ii)
      ⟨[], [], [], []⟩
  else ⟨[], [], [], []⟩

/-- A CGRA component record (lines 172-180): category, the node's text
as display name (missing text defaulting to empty), location, interface. -/
structure CgraComponent where
  type : String
  name : String
  startP : Point
  endP : Point
  interface : InterfaceInfo
deriving DecidableEq

/-- What one CGRA traversal accumulates: the component records, each
tagged with the category list it is appended to, and the relationship
list (lines 159-196). -/
structure CgraResult where
  entries : List (String × CgraComponent)
  relationships : List Relationship
deriving DecidableEq

/-- Concatenation of two traversal results, list by list. -/
def CgraResult.app (r1 r2 : CgraResult) : CgraResult :=
  ⟨r1.entries ++ r2.entries, r1.relationships ++ r2.relationships⟩

/-- What the `if component_type:` block of `traverse_node`
(lines 171-190) appends for the current node: nothing for an
uncategorized node, else the component record under its category
together with the parent-to-current `contains` relationship when a
parent category is in scope. -/
def cgraHere (n : Node) (component_type parent_type : Option String) :
    CgraResult :=
  match component_type with
  | none => ⟨[], []⟩
  | some ct =>
      ⟨[(ct, ⟨ct, n.text.getD "", n.start_point, n.end_point,
              extract_interface_info n⟩)],
       match parent_type with
       | some pt => [⟨some pt, some ct, "contains"⟩]
       | none => []⟩

/-- Python's `component_type or parent_type` (line 193); a category
string is never empty, hence truthy. -/
def ctxOrS (component_type parent_type : Option String) : Option String :=
  match component_type with
  | some ct => some ct
  | none => parent_type

mutual
/-- The nested `traverse_node` of `CGRAAnalyzer.analyze_cgra_components`
(lines 168-193): a categorized node is recorded under its category; a
`contains` relationship from the parent's category to the node's
category is emitted when a categorized ancestor is in scope; children
inherit `component_type or parent_type`. -/
def traverse_node : Node → Option String → CgraResult
  | n@(.mk _ _ _ _ cs), parent_type =>
    let component_type := identify_component_type n
    CgraResult.app (cgraHere n component_type parent_type)
      (traverse_children cs (ctxOrS component_type parent_type))

/-- The child loop of `traverse_node` (lines 192-193). -/
def traverse_children : List Node → Option String → CgraResult
  | [], _ => ⟨[], []⟩
  | c :: cs, ctx => CgraResult.app (traverse_node c ctx) (traverse_children cs ctx)
end

/-- `CGRAAnalyzer.analyze_cgra_components` (lines 149-196): the
traversal starts at the bundle's root with no parent category. -/
def analyze_cgra_components (root : Node) : CgraResult :=
  traverse_node root none

/-- The file-bucketing step of `CGRAAnalyzer.analyze_cgra_project`
(lines 264-272), applied to the bare filename and the relative path of
each parsed file: first match wins. -/
def categorize_file (file : String) (relative_path : String) : String :=
  if strContains file "test" then "tests"
  else if strContains relative_path "samples" then "samples"
  else if ["core", "cgra", "pe"].any
      (fun key => strContains (pyLower relative_path) key) then
    "core_components"
  else "utilities"

mutual
/-- Whether some node of the subtree matches the generic `component`
category; used to state the orphan-gap property. -/
def hasComponentNode : Node → Bool
  | n@(.mk _ _ _ _ cs) => match_pattern n .component || hasComponentNodeList cs

/-- List form of `hasComponentNode`. -/
def hasComponentNodeList : List Node → Bool
  | [] => false
  | c :: cs => hasComponentNode c || hasComponentNodeList cs
end

mutual
/-- Modelled from the claim wording, for comparison with the source's
`_extract_name`: the text of the first descendant, at any depth in
pre-order, whose kind is `identifier` or `field_identifier`. -/
def firstIdentDescendant : List Node → Option String
  | [] => none
  | c :: cs =>
      match identSearch c with
      | some t => some t
      | none => firstIdentDescendant cs

/-- Pre-order search of a subtree for the first `identifier` or
`field_identifier` node; part of the claim-side name extraction. -/
def identSearch : Node → Option String
  | n@(.mk _ _ _ _ cs) =>
      if n.type == "identifier" || n.type == "field_identifier" then n.text
      else firstIdentDescendant cs
end

/-- Modelled from the claim wording (claim C4): leaf text if present,
else the text of the first descendant at any depth, in pre-order, whose
kind is `identifier` or `field_identifier`, else `None`. -/
def extract_name_spec (n : Node) : Option String :=
  match n.text with
  | some t => some t
  | none => firstIdentDescendant n.children

/-- Shorthand for a leaf node carrying text, at the origin. -/
def leaf (type text : String) : Node :=
  .mk type (some text) ⟨0, 0⟩ ⟨0, 0⟩ []

/-- Shorthand for an inner node without text. -/
def inner (type : String) (cs : List Node) : Node :=
  .mk type none ⟨0, 0⟩ ⟨0, 0⟩ cs

/-- A two-component test tree: a top-level `struct_type` named `Top`
containing a nested `struct_type` named `Sub`; neither identifier text
contains a component keyword, so only the two `struct_type` nodes match. -/
def topSubTree : Node :=
  inner "struct_type" [leaf "identifier" "Top",
                       inner "struct_type" [leaf "identifier" "Sub"]]

/-- A component node whose only identifier descendant sits at depth two,
below a non-identifier `block` child. -/
def deepIdentTree : Node :=
  inner "struct_type" [inner "block" [leaf "identifier" "X"]]

/-- An analysis bundle holding the single tree `topSubTree`. -/
def topSubFiles : List (Except String AnalysisData) :=
  [.ok ⟨[⟨some ⟨some topSubTree⟩⟩]⟩]

/-- Claim C2: for every node carrying text, the CGRA classifier assigns
at most one category by testing the keyword lists in the fixed priority
order ProcessingElement, Interconnect, Memory, Control, Configuration,
the first case-insensitive substring match winning and short-circuiting
the rest; nodes without text are skipped entirely; and a node with text
`PEController` (matching both the ProcessingElement and the Control
lists) classifies as ProcessingElement. -/
theorem c2_cgra_priority :
    (∀ k s e cs, identify_component_type (.mk k none s e cs) = none) ∧
    (∀ k t s e cs,
      identify_component_type (.mk k (some t) s e cs) =
        (if ["ProcessingElement", "PE", "ALU", "FunctionalUnit"].any
              (fun p => strContains (pyLower t) (pyLower p)) then
          some "processing_elements"
        else if ["Network", "Interconnect", "Router", "Switch"].any
              (fun p => strContains (pyLower t) (pyLower p)) then
          some "interconnects"
        else if ["Memory", "Buffer", "Cache", "Register"].any
              (fun p => strContains (pyLower t) (pyLower p)) then
          some "memories"
        else if ["Controller", "Scheduler", "Mapper"].any
              (fun p => strContains (pyLower t) (pyLower p)) then
          some "controls"
        else if ["Config", "Configuration", "Setting"].any
              (fun p => strContains (pyLower t) (pyLower p)) then
          some "configurations"
        else none)) ∧
    identify_component_type (leaf "identifier" "PEController") =
      some "processing_elements" :=
  ⟨fun _ _ _ _ => rfl, fun _ _ _ _ _ => rfl, by decide⟩

/-- Claim C3: for every data-flow-matched node the direction is computed
from the case-folded text, the input/in/receive family first, then
output/out/send, else bidirectional; the record emitted for a matched
node carries exactly this direction; and the tie-break example
`data_in_out_buffer`, containing cues of both families, resolves to
`in`. -/
theorem c3_data_direction :
    (∀ k t s e cs,
      determine_data_direction (.mk k (some t) s e cs) =
        (if ["input", "in", "receive"].any
              (fun x => strContains (pyLower t) x) then "in"
         else if ["output", "out", "send"].any
              (fun x => strContains (pyLower t) x) then "out"
         else "bidirectional")) ∧
    (∀ n, match_pattern n .data_flow = true →
      (extract_data_flow n).head? =
        some ⟨"data_flow", extract_name n, n.type, n.start_point,
              n.end_point, determine_data_direction n⟩) ∧
    determine_data_direction (leaf "field_identifier" "data_in_out_buffer") =
      "in" := by
  refine ⟨fun _ _ _ _ _ => rfl, ?_, by decide⟩
  intro n h
  cases n with
  | mk k t s e cs =>
    rw [extract_data_flow]
    simp only [h, if_true]
    rfl

/-- Witness for claim C3's hypothesis: the node with text
`data_in_out_buffer` matches the data-flow category (its text contains
the keyword `data`), and the pattern record emitted for it carries
direction `in`. -/
theorem c3_data_direction_witness :
    match_pattern (leaf "field_identifier" "data_in_out_buffer")
        .data_flow = true ∧
    (extract_data_flow (leaf "field_identifier" "data_in_out_buffer")).head? =
      some ⟨"data_flow", some "data_in_out_buffer", "field_identifier",
            ⟨0, 0⟩, ⟨0, 0⟩, "in"⟩ := by
  refine ⟨by decide, ?_⟩
  rw [c3_data_direction.2.1 (leaf "field_identifier" "data_in_out_buffer")
    (by decide)]
  decide

/-- Claim C7 is refuted on this node: it has no `text` field, yet the
generic classifier answers positively for the Component category,
because its `struct_type` kind is in the category's node-kind list — not
the negative/empty result the claim asserts for every classification
function. -/
theorem c7_counterexample :
    match_pattern (inner "struct_type" []) .component = true := by decide

/-- Claim C7 as amended: for every node lacking text, absent text is
treated as the empty string and never causes an error (both classifiers
are total functions); text-based keyword matching then never fires, so
the generic classifier degenerates to the node-kind membership test and
the CGRA classifier returns no category. -/
theorem c7_textless_nodes (k : String) (s e : Point) (cs : List Node) :
    (∀ pt, match_pattern (.mk k none s e cs) pt =
      (patternTypes pt).contains (pyLower k)) ∧
    identify_component_type (.mk k none s e cs) = none := by
  refine ⟨?_, rfl⟩
  intro pt
  show ((patternTypes pt).contains (pyLower k) ||
    (patternIdentifiers pt).any (fun p => strContains (pyLower "") p)) = _
  have h : ((patternIdentifiers pt).any
      (fun p => strContains (pyLower "") p)) = false := by
    cases pt <;> decide
  rw [h, Bool.or_false]

/-- Claim C8: the project-structure bucket of an analyzed file is chosen
first-match-wins — filename containing `test`, else relative path
containing `samples`, else lower-cased relative path containing one of
`core`, `cgra`, `pe`, else utilities — and every file lands in exactly
one of the four buckets. -/
theorem c8_file_bucketing (file relative_path : String) :
    (categorize_file file relative_path = "tests" ↔
      strContains file "test" = true) ∧
    (categorize_file file relative_path = "samples" ↔
      strContains file "test" = false ∧
      strContains relative_path "samples" = true) ∧
    (categorize_file file relative_path = "core_components" ↔
      strContains file "test" = false ∧
      strContains relative_path "samples" = false ∧
      (["core", "cgra", "pe"].any
        (fun key => strContains (pyLower relative_path) key)) = true) ∧
    (categorize_file file relative_path = "utilities" ↔
      strContains file "test" = false ∧
      strContains relative_path "samples" = false ∧
      (["core", "cgra", "pe"].any
        (fun key => strContains (pyLower relative_path) key)) = false) := by
  unfold categorize_file
  cases h1 : strContains file "test" <;>
    cases h2 : strContains relative_path "samples" <;>
      cases h3 : (["core", "cgra", "pe"].any
        (fun key => strContains (pyLower relative_path) key)) <;>
        simp [h1, h2, h3]

mutual
/-- A subtree containing no component-matching node contributes no
relationship, whatever context it is visited under. -/
theorem extract_rel_nil_of_no_comp : ∀ (n : Node) (ctx : Option Info),
    hasComponentNode n = false → extract_relationships n ctx = []
  | .mk k t s e cs, ctx, h => by
    rw [hasComponentNode] at h
    rcases Bool.or_eq_false_iff.mp h with ⟨hm, hl⟩
    rw [extract_relationships, if_neg (by simp [hm])]
    simp [emitRel, ctxOr, extract_rel_list_nil_of_no_comp cs ctx hl]

/-- List form of `extract_rel_nil_of_no_comp`. -/
theorem extract_rel_list_nil_of_no_comp : ∀ (l : List Node) (ctx : Option Info),
    hasComponentNodeList l = false → extract_relationships_list l ctx = []
  | [], _, _ => rfl
  | c :: cs, ctx, h => by
    rw [hasComponentNodeList] at h
    rcases Bool.or_eq_false_iff.mp h with ⟨h1, h2⟩
    rw [extract_relationships_list,
        extract_rel_nil_of_no_comp c ctx h1,
        extract_rel_list_nil_of_no_comp cs ctx h2]
    rfl
end

/-- Claim C1 is refuted on `topSubTree`: its root is a component node
with no enclosing matched ancestor (the extraction starts with no
context), yet the analysis of the tree does produce a relationship with
the root's name as the `from` endpoint, so the root's name does appear
in the components set derived from relationship endpoints. -/
theorem c1_counterexample :
    match_pattern topSubTree .component = true ∧
    extract_relationships topSubTree none =
      [⟨some "Top", some "Sub", "contains"⟩] ∧
    some "Top" ∈ addComponents [] (extract_relationships topSubTree none) := by
  decide

/-- Claim C1 as amended: a component node visited with no enclosing
matched ancestor emits no relationship at itself; when additionally no
descendant matches the Component category, the subtree produces zero
relationships, so the node is absent from the components set that the
aggregation derives from relationship endpoints (and hence uncounted in
`total_components`).  When a descendant does match, the orphan root can
still enter that set as a `from` endpoint, as `c1_counterexample`
records. -/
theorem c1_orphan_gap (n : Node)
    (hcomp : match_pattern n .component = true)
    (hdesc : hasComponentNodeList n.children = false) :
    extract_relationships n none = [] ∧
    addComponents [] (extract_relationships n none) = [] := by
  cases n with
  | mk k t s e cs =>
    have hnil : extract_relationships_list cs
        (some (node_info (.mk k t s e cs))) = [] :=
      extract_rel_list_nil_of_no_comp cs _ hdesc
    have hmain : extract_relationships (.mk k t s e cs) none = [] := by
      rw [extract_relationships, if_pos hcomp]
      simp [emitRel, ctxOr, hnil]
    exact ⟨hmain, by rw [hmain]; rfl⟩

/-- Witness for claim C1's hypotheses: a lone `struct_type` component
whose single child is a plain identifier leaf matching nothing; the
orphan component produces zero relationships and an empty components
set. -/
theorem c1_orphan_gap_witness :
    match_pattern (inner "struct_type" [leaf "identifier" "Top"])
        .component = true ∧
    hasComponentNodeList
        (inner "struct_type" [leaf "identifier" "Top"]).children = false ∧
    extract_relationships (inner "struct_type" [leaf "identifier" "Top"])
        none = [] ∧
    addComponents [] (extract_relationships
        (inner "struct_type" [leaf "identifier" "Top"]) none) = [] :=
  ⟨by decide, by decide,
   (c1_orphan_gap _ (by decide) (by decide)).1,
   (c1_orphan_gap _ (by decide) (by decide)).2⟩

/-- Claim C4 is refuted on `deepIdentTree`: the component node's only
identifier descendant sits at depth two, so the source's name extraction
(which scans immediate children only) finds nothing, and the emitted
relationship points at the absent name, while the claim's any-depth
pre-order search would have produced `X`. -/
theorem c4_counterexample :
    extract_name deepIdentTree = none ∧
    extract_name_spec deepIdentTree = some "X" ∧
    match_pattern deepIdentTree .component = true ∧
    extract_relationships deepIdentTree
        (some ⟨some "P", "struct_type", ⟨0, 0⟩, ⟨0, 0⟩⟩) =
      [⟨some "P", none, "contains"⟩] ∧
    extract_relationships deepIdentTree
        (some ⟨some "P", "struct_type", ⟨0, 0⟩, ⟨0, 0⟩⟩) ≠
      [⟨some "P", some "X", "contains"⟩] := by decide

/-- Claim C4 as amended: the display name of a component node is its own
leaf text if present, else the text (itself possibly absent) of the
first immediate child — not a descendant at arbitrary depth — whose kind
is `identifier` or `field_identifier`, else `None`; when the enclosing
context holds component info, a relationship from the context's name to
the extracted name is emitted, and the matched node's info (carrying the
extracted name) becomes the context for its children, the existing
context propagating unchanged otherwise. -/
theorem c4_name_extraction_amended :
    (∀ k t s e cs, extract_name (.mk k (some t) s e cs) = some t) ∧
    (∀ k s e cs, extract_name (.mk k none s e cs) =
      (cs.find? fun c =>
        c.type == "identifier" || c.type == "field_identifier").bind
          Node.text) ∧
    (∀ n ctx, extract_relationships n ctx =
      if match_pattern n .component then
        (match ctx with
         | some p => [⟨p.name, extract_name n, "contains"⟩]
         | none => []) ++
          extract_relationships_list n.children
            (some ⟨extract_name n, n.type, n.start_point, n.end_point⟩)
      else extract_relationships_list n.children ctx) := by
  refine ⟨fun _ _ _ _ _ => rfl, ?_, ?_⟩
  · intro k s e cs
    show firstIdentText cs = _
    induction cs with
    | nil => rfl
    | cons c cs ih =>
      rw [firstIdentText]
      by_cases h : (c.type == "identifier" || c.type == "field_identifier") = true
      · simp [List.find?, h]
      · simp only [Bool.not_eq_true] at h
        simp [List.find?, h, ih]
  · intro n ctx
    cases n with
    | mk k t s e cs =>
      rw [extract_relationships]
      by_cases hm : match_pattern (.mk k t s e cs) .component = true
      · rw [if_pos hm, if_pos hm]
        cases ctx <;> rfl
      · rw [if_neg hm, if_neg hm]
        rfl

/-- Claim C6 is refuted on this pair of nested CGRA-classified nodes:
the outer node `NetworkTop` is an interconnect and the inner `PECore` a
processing element, and the emitted containment relationship carries the
category labels, not the component names the claim asserts. -/
theorem c6_counterexample :
    (traverse_node (Node.mk "struct_type" (some "NetworkTop") ⟨0, 0⟩ ⟨0, 0⟩
        [leaf "struct_type" "PECore"]) none).relationships =
      [⟨some "interconnects", some "processing_elements", "contains"⟩] ∧
    (traverse_node (Node.mk "struct_type" (some "NetworkTop") ⟨0, 0⟩ ⟨0, 0⟩
        [leaf "struct_type" "PECore"]) none).relationships ≠
      [⟨some "NetworkTop", some "PECore", "contains"⟩] := by decide

/-- Claim C6 as amended: for every CGRA-classified node with a
CGRA-classified enclosing ancestor a containment relationship is emitted
with the same walk-and-context scheme as the generic extractor, but its
`from` and `to` fields hold the CGRA category labels of the two nodes
(not their component names), matching being keyed on the CGRA category;
the orphan-root limitation is the same — no relationship when there is
no categorized ancestor — and the node's own category is the context its
children inherit. -/
theorem c6_cgra_containment (n : Node) (pt : Option String) :
    (traverse_node n pt).relationships =
      (match identify_component_type n with
       | some ct =>
          (match pt with
           | some p => [⟨some p, some ct, "contains"⟩]
           | none => []) ++
            (traverse_children n.children (some ct)).relationships
       | none => (traverse_children n.children pt).relationships) := by
  cases n with
  | mk k t s e cs =>
    rw [traverse_node]
    cases hid : identify_component_type (.mk k t s e cs) with
    | none => rfl
    | some ct => cases pt <;> rfl

/-- Membership of the inserted element after a set insertion. -/
theorem mem_addComponent (s : List (Option String)) (x : Option String) :
    x ∈ addComponent s x := by
  unfold addComponent
  by_cases h : s.contains x
  · rw [if_pos h]
    exact List.mem_of_elem_eq_true h
  · rw [if_neg h]
    exact List.mem_append_right _ (List.mem_singleton.mpr rfl)

/-- Set insertion preserves membership. -/
theorem mem_addComponent_of_mem {s : List (Option String)} {x : Option String}
    (h : x ∈ s) (y : Option String) : x ∈ addComponent s y := by
  unfold addComponent
  by_cases h2 : s.contains y
  · rwa [if_pos h2]
  · rw [if_neg h2]
    exact List.mem_append_left _ h

/-- Folding relationships into the components set preserves membership. -/
theorem mem_addComponents_of_mem {x : Option String} :
    ∀ (rels : List Relationship) {s : List (Option String)}, x ∈ s →
      x ∈ addComponents s rels
  | [], _, h => h
  | r :: rs, _, h =>
      mem_addComponents_of_mem rs
        (mem_addComponent_of_mem (mem_addComponent_of_mem h r.from_) r.to_)

/-- Building the relationship graph preserves node membership. -/
theorem mem_nodes_build_of_mem {x : Option String} :
    ∀ (rels : List Relationship) {g : RelGraph}, x ∈ g.nodes →
      x ∈ (build_relationship_graph g rels).nodes
  | [], _, h => h
  | r :: rs, _, h =>
      mem_nodes_build_of_mem rs
        (mem_addComponent_of_mem (mem_addComponent_of_mem h r.from_) r.to_)

/-- Claim C10: a component-matched node from which no name is extracted
is still treated as a component — under an enclosing component context
it emits a relationship whose `to` field is the absent name, that absent
name becomes the context for the node's entire subtree (descendant
components relate to it, not to the grandparent), and the absent name
enters both the components set derived from relationship endpoints and
the relationship graph as a node. -/
theorem c10_null_name (n : Node) (p : Info)
    (hm : match_pattern n .component = true)
    (hn : extract_name n = none) :
    extract_relationships n (some p) =
      ⟨p.name, none, "contains"⟩ ::
        extract_relationships_list n.children
          (some ⟨none, n.type, n.start_point, n.end_point⟩) ∧
    none ∈ addComponents [] (extract_relationships n (some p)) ∧
    none ∈ (build_relationship_graph graphInit
      (extract_relationships n (some p))).nodes := by
  cases n with
  | mk k t s e cs =>
    have hinfo : node_info (.mk k t s e cs) =
        ⟨none, k, s, e⟩ := by
      unfold node_info
      rw [hn]
      rfl
    have hmain : extract_relationships (.mk k t s e cs) (some p) =
        ⟨p.name, none, "contains"⟩ ::
          extract_relationships_list cs (some ⟨none, k, s, e⟩) := by
      rw [extract_relationships, if_pos hm, hinfo]
      rfl
    refine ⟨hmain, ?_, ?_⟩
    · rw [hmain]
      show none ∈ addComponents
        (addComponent (addComponent [] p.name) none) _
      exact mem_addComponents_of_mem _ (mem_addComponent _ none)
    · rw [hmain]
      show none ∈ (build_relationship_graph
        (add_edge graphInit p.name none "contains") _).nodes
      refine mem_nodes_build_of_mem _ ?_
      show none ∈ addComponent (addComponent graphInit.nodes p.name) none
      exact mem_addComponent _ none

/-- Witness for claim C10's hypotheses: a nameless `struct_type`
component containing a named nested component, visited under a parent
context named `P`. -/
theorem c10_null_name_witness :
    match_pattern (inner "struct_type" [inner "struct_type"
        [leaf "identifier" "Sub"]]) .component = true ∧
    extract_name (inner "struct_type" [inner "struct_type"
        [leaf "identifier" "Sub"]]) = none ∧
    none ∈ addComponents [] (extract_relationships
        (inner "struct_type" [inner "struct_type" [leaf "identifier" "Sub"]])
        (some ⟨some "P", "struct_type", ⟨0, 0⟩, ⟨0, 0⟩⟩)) ∧
    none ∈ (build_relationship_graph graphInit (extract_relationships
        (inner "struct_type" [inner "struct_type" [leaf "identifier" "Sub"]])
        (some ⟨some "P", "struct_type", ⟨0, 0⟩, ⟨0, 0⟩⟩))).nodes :=
  ⟨by decide, by decide,
   (c10_null_name _ _ (by decide) (by decide)).2.1,
   (c10_null_name _ _ (by decide) (by decide)).2.2⟩

/-- Every field of the output document except the components list. -/
def nonComponentFields (a : ArchAnalysis) :
    List Relationship × List ControlPattern × List DataPattern × Metrics :=
  (a.relationships, a.control_flow_patterns, a.data_flow_patterns, a.metrics)

/-- One step of the file fold on a successfully loaded document. -/
theorem foldFiles_cons_ok (acc : Accum) (d : AnalysisData)
    (fs : List (Except String AnalysisData)) :
    foldFiles acc (.ok d :: fs) =
      match foldEntries acc d.analysis with
      | .error msg => .error msg
      | .ok acc2 => foldFiles acc2 fs := rfl

/-- Claim C5 is refuted on `topSubFiles`: the source converts the
components set to a list with no sorting or other canonicalization, so
the emitted document depends on the hash-seed-dependent order in which
the set happens to be enumerated — here two legitimate enumeration
orders of the same two-element set yield two different documents. -/
theorem c5_counterexample :
    (analyze_architecture topSubFiles id).map ArchAnalysis.components =
      .ok [some "Top", some "Sub"] ∧
    (analyze_architecture topSubFiles List.reverse).map
        ArchAnalysis.components =
      .ok [some "Sub", some "Top"] ∧
    analyze_architecture topSubFiles id ≠
      analyze_architecture topSubFiles List.reverse := by
  refine ⟨rfl, rfl, fun h => ?_⟩
  have h2 := congrArg (Except.map ArchAnalysis.components) h
  have h3 : (Except.ok [some "Top", some "Sub"] :
      Except String (List (Option String))) = .ok [some "Sub", some "Top"] := h2
  exact absurd (Except.ok.inj h3) (by decide)

/-- Claim C5 as amended: on identical input and rule table every output
field except the components list is bit-identical across runs, and the
components list is determined up to permutation — its contents are the
set of relationship endpoints, but it is emitted in whatever order the
set is enumerated, with no canonicalization, so only permutation-level
(not bit-level) determinism holds for it. -/
theorem c5_determinism :
    (∀ files e1 e2,
      (analyze_architecture files e1).map nonComponentFields =
        (analyze_architecture files e2).map nonComponentFields) ∧
    (∀ files e1 e2 (o1 o2 : ArchAnalysis),
      (∀ l : List (Option String), List.Perm (e1 l) l) →
      (∀ l : List (Option String), List.Perm (e2 l) l) →
      analyze_architecture files e1 = .ok o1 →
      analyze_architecture files e2 = .ok o2 →
      List.Perm o1.components o2.components) := by
  constructor
  · intro files e1 e2
    unfold analyze_architecture
    cases hf : foldFiles accumInit files with
    | error msg => rfl
    | ok acc => rfl
  · intro files e1 e2 o1 o2 h1 h2 k1 k2
    unfold analyze_architecture at k1 k2
    cases hf : foldFiles accumInit files with
    | error msg =>
        rw [hf] at k1
        exact absurd k1 (by simp)
    | ok acc =>
        rw [hf] at k1 k2
        rw [← Except.ok.inj k1, ← Except.ok.inj k2]
        exact (h1 acc.components).trans (h2 acc.components).symm

/-- Witness for claim C5's hypotheses: the identity and the reversal are
both valid enumerations (permutations) of the components set, and on the
concrete bundle `topSubFiles` the two runs agree on everything except
the order of the two-element components list. -/
theorem c5_determinism_witness :
    (analyze_architecture topSubFiles id).map nonComponentFields =
      (analyze_architecture topSubFiles List.reverse).map nonComponentFields ∧
    List.Perm
      ((⟨[some "Top", some "Sub"], [⟨some "Top", some "Sub", "contains"⟩],
         [], [], ⟨2, 1, 0, 0⟩⟩ : ArchAnalysis).components)
      ((⟨[some "Sub", some "Top"], [⟨some "Top", some "Sub", "contains"⟩],
         [], [], ⟨2, 1, 0, 0⟩⟩ : ArchAnalysis).components) :=
  ⟨c5_determinism.1 topSubFiles id List.reverse,
   c5_determinism.2 topSubFiles id List.reverse _ _
     (fun l => List.Perm.refl l) (fun l => List.reverse_perm l) rfl rfl⟩

/-- Skipping a bundle entry with no `ast` key leaves the entry fold
unchanged, wherever the entry sits. -/
theorem foldEntries_skip :
    ∀ (es1 : List FileEntry) (acc : Accum) (es2 : List FileEntry),
      foldEntries acc (es1 ++ ⟨none⟩ :: es2) = foldEntries acc (es1 ++ es2)
  | [], _, _ => rfl
  | ⟨none⟩ :: es1, acc, es2 => foldEntries_skip es1 acc es2
  | ⟨some ⟨none⟩⟩ :: _, _, _ => rfl
  | ⟨some ⟨some root⟩⟩ :: es1, acc, es2 =>
      foldEntries_skip es1 (accumAdd acc ⟨extract_relationships root none,
        extract_control_flow root, extract_data_flow root⟩) es2

/-- A failing load anywhere after a cleanly folding prefix aborts the
whole file fold with that load's error. -/
theorem foldFiles_abort :
    ∀ (fs1 : List (Except String AnalysisData)) (acc acc1 : Accum),
      foldFiles acc fs1 = .ok acc1 →
      ∀ (msg : String) (fs2 : List (Except String AnalysisData)),
        foldFiles acc (fs1 ++ .error msg :: fs2) = .error msg
  | [], _, _, _, _, _ => rfl
  | .error _ :: _, _, _, h, _, _ => absurd h (by simp [foldFiles])
  | .ok d :: fs1, acc, acc1, h, msg, fs2 => by
      rw [foldFiles_cons_ok] at h
      rw [List.cons_append, foldFiles_cons_ok]
      cases hfe : foldEntries acc d.analysis with
      | error m => rw [hfe] at h; exact absurd h (by simp)
      | ok acc2 =>
          rw [hfe] at h
          exact foldFiles_abort fs1 acc2 acc1 h msg fs2

/-- Claim C9 is refuted on this two-file batch: adding a file whose load
fails does not skip just that file — the whole analysis aborts with the
load error, losing the first file's contribution (which the second
conjunct shows is produced when the failing file is absent), and no
diagnostics list exists anywhere in the output. -/
theorem c9_counterexample :
    analyze_architecture (topSubFiles ++ [.error "unreadable file"]) id =
      .error "unreadable file" ∧
    (analyze_architecture topSubFiles id).map ArchAnalysis.relationships =
      .ok [⟨some "Top", some "Sub", "contains"⟩] := ⟨rfl, rfl⟩

/-- Claim C9 as amended: only a bundle entry whose tree is missing (no
`ast` key) is isolated — it is silently skipped, without any diagnostics
record, and the other files' accumulated results are unchanged by it;
but a file whose load fails aborts the whole batch with that error (as
does, via a `KeyError`, an entry whose inner tree field is missing), so
the batch is not continued past a per-file load failure. -/
theorem c9_per_file_failure :
    (∀ (es1 es2 : List FileEntry) (rest : List (Except String AnalysisData))
       (setOrder : List (Option String) → List (Option String)),
      analyze_architecture (.ok ⟨es1 ++ ⟨none⟩ :: es2⟩ :: rest) setOrder =
        analyze_architecture (.ok ⟨es1 ++ es2⟩ :: rest) setOrder) ∧
    (∀ (fs1 : List (Except String AnalysisData)) (acc1 : Accum),
      foldFiles accumInit fs1 = .ok acc1 →
      ∀ (msg : String) (fs2 : List (Except String AnalysisData))
        (setOrder : List (Option String) → List (Option String)),
        analyze_architecture (fs1 ++ .error msg :: fs2) setOrder =
          .error msg) := by
  constructor
  · intro es1 es2 rest setOrder
    have hf : foldFiles accumInit (.ok ⟨es1 ++ ⟨none⟩ :: es2⟩ :: rest) =
        foldFiles accumInit (.ok ⟨es1 ++ es2⟩ :: rest) := by
      rw [foldFiles_cons_ok, foldFiles_cons_ok]
      show (match foldEntries accumInit (es1 ++ ⟨none⟩ :: es2) with
            | .error msg => (Except.error msg : Except String Accum)
            | .ok acc2 => foldFiles acc2 rest) = _
      rw [foldEntries_skip]
    unfold analyze_architecture
    rw [hf]
  · intro fs1 acc1 h msg fs2 setOrder
    unfold analyze_architecture
    rw [foldFiles_abort fs1 accumInit acc1 h msg fs2]

/-- Witness for claim C9's hypotheses: the singleton batch holding
`topSubTree` folds cleanly to concrete accumulators, and appending a
failing load to it aborts the batch with the load's error. -/
theorem c9_per_file_failure_witness :
    foldFiles accumInit topSubFiles = .ok ⟨[some "Top", some "Sub"],
      [⟨some "Top", some "Sub", "contains"⟩], [], []⟩ ∧
    analyze_architecture (topSubFiles ++ .error "unreadable file" :: []) id =
      .error "unreadable file" :=
  ⟨rfl, c9_per_file_failure.2 topSubFiles _ rfl "unreadable file" [] id⟩
